import Mathlib

/-!
Verification of the NLU-with-Ollama calendar pipeline.

This file is a shallow embedding of the two source files of the repository:

* `NLU_with_OpenAI.py` — the schema-constrained extraction strategy
  (`extract_event`, embedded here as `openai_extract_event` over an
  abstract model-call outcome) and the pure mapper `to_gcal_event`.
* `app.py` — the free-text extraction strategy (`extract_event` over an
  abstract transport outcome), the rule-based keyword fallback
  `extract_event_fallback`, and the placeholder-year date-correction
  heuristic `validate_and_correct_dates`.

Timestamps are modelled by `PyDateTime`, a record of calendar fields plus
an optional UTC offset (a `none` offset is a naive Python datetime).
`fromisoformat` embeds `datetime.fromisoformat` on the RFC3339-style
grammar the code works with (date, optional T-time with optional seconds,
optional 6-digit fraction, optional signed HH:MM offset); `isoformat`
embeds `datetime.isoformat` for such values; `addMinutes` and `addDays`
embed `timedelta` arithmetic via the standard civil-calendar day-number
conversions. Python dictionary slot sets are modelled by the record
`SlotSet` whose fields are `Option`-valued (a `none` field is an absent
key, matching the recognized keys of the slot-set schema). External
effects (the model API call, the HTTP transport and the JSON decoding of
its envelope) are modelled by explicit outcome types; a Python exception
that escapes a function is modelled by `Except.error`.
-/

/-- Digit character for a single decimal digit, as produced by Python
string formatting. All call sites pass values below ten. -/
def dchar : Nat → Char
  | 0 => '0'
  | 1 => '1'
  | 2 => '2'
  | 3 => '3'
  | 4 => '4'
  | 5 => '5'
  | 6 => '6'
  | 7 => '7'
  | 8 => '8'
  | _ => '9'

/-- Two-digit zero-padded rendering (Python `%02d` on values below 100). -/
def pad2c (n : Nat) : List Char := [dchar (n / 10 % 10), dchar (n % 10)]

/-- Four-digit zero-padded rendering (Python `%Y` on four-digit years). -/
def pad4c (n : Nat) : List Char :=
  [dchar (n / 1000 % 10), dchar (n / 100 % 10), dchar (n / 10 % 10), dchar (n % 10)]

/-- Six-digit zero-padded rendering (Python `%06d`, used for microseconds). -/
def pad6c (n : Nat) : List Char :=
  [dchar (n / 100000 % 10), dchar (n / 10000 % 10), dchar (n / 1000 % 10),
   dchar (n / 100 % 10), dchar (n / 10 % 10), dchar (n % 10)]

/-- Gregorian leap-year test, as in the Python calendar. -/
def isLeap (y : Nat) : Bool := (y % 4 == 0 && y % 100 != 0) || y % 400 == 0

/-- Number of days of a month, used by `fromisoformat` validation. -/
def daysInMonth (y m : Nat) : Nat :=
  if m = 1 ∨ m = 3 ∨ m = 5 ∨ m = 7 ∨ m = 8 ∨ m = 10 ∨ m = 12 then 31
  else if m = 4 ∨ m = 6 ∨ m = 9 ∨ m = 11 then 30
  else if m = 2 then (if isLeap y then 29 else 28)
  else 0

/-- Day number of a civil date (days since 1970-01-01), the standard
civil-calendar conversion used to embed Python date arithmetic. -/
def days_from_civil (y m d : Int) : Int :=
  let y2 := if m ≤ 2 then y - 1 else y
  let era := y2.ediv 400
  let yoe := y2 - era * 400
  let mp := if m > 2 then m - 3 else m + 9
  let doy := (153 * mp + 2).ediv 5 + d - 1
  let doe := yoe * 365 + yoe.ediv 4 - yoe.ediv 100 + doy
  era * 146097 + doe - 719468

/-- Civil date of a day number, inverse direction of `days_from_civil`. -/
def civil_from_days (z : Int) : Int × Int × Int :=
  let z2 := z + 719468
  let era := z2.ediv 146097
  let doe := z2 - era * 146097
  let yoe := (doe - doe.ediv 1460 + doe.ediv 36524 - doe.ediv 146096).ediv 365
  let y := yoe + era * 400
  let doy := doe - (365 * yoe + yoe.ediv 4 - yoe.ediv 100)
  let mp := (5 * doy + 2).ediv 153
  let d := doy - (153 * mp + 2).ediv 5 + 1
  let m := if mp < 10 then mp + 3 else mp - 9
  (if m ≤ 2 then y + 1 else y, m, d)

/-- Model of a Python `datetime` value: calendar fields plus an optional
fixed UTC offset in minutes. A `none` offset is a naive datetime (such as
the result of `datetime.now()`). -/
structure PyDateTime where
  year : Nat
  month : Nat
  day : Nat
  hour : Nat
  minute : Nat
  second : Nat
  microsecond : Nat
  offsetMinutes : Option Int
deriving DecidableEq

/-- Embedding of `dt + timedelta(days=n)`: the date moves by `n` days,
time-of-day, microsecond and offset are untouched. -/
def addDays (dt : PyDateTime) (n : Int) : PyDateTime :=
  let c := civil_from_days (days_from_civil dt.year dt.month dt.day + n)
  { dt with year := c.1.toNat, month := c.2.1.toNat, day := c.2.2.toNat }

/-- Embedding of `dt + timedelta(minutes=k)` for an integer `k`: wall
clock arithmetic of Python on a fixed-offset or naive datetime. Seconds,
microseconds and the offset are untouched. -/
def addMinutes (dt : PyDateTime) (k : Int) : PyDateTime :=
  let total := days_from_civil dt.year dt.month dt.day * 1440
               + (dt.hour : Int) * 60 + dt.minute + k
  let c := civil_from_days (total.ediv 1440)
  let rem := (total.emod 1440).toNat
  { dt with year := c.1.toNat, month := c.2.1.toNat, day := c.2.2.toNat,
            hour := rem / 60, minute := rem % 60 }

/-- Embedding of `dt.replace(hour=h, minute=mi, second=s)`: the
microsecond field is deliberately NOT touched, exactly as in the code. -/
def replaceHMS (dt : PyDateTime) (h mi s : Nat) : PyDateTime :=
  { dt with hour := h, minute := mi, second := s }

/-- Characters of the UTC offset suffix of `datetime.isoformat`; empty
for a naive datetime. -/
def offChars : Option Int → List Char
  | none => []
  | some off =>
    (if off < 0 then '-' else '+') :: pad2c (off.natAbs / 60) ++ ':' :: pad2c (off.natAbs % 60)

/-- Characters of the fractional-second part of `datetime.isoformat`;
empty when the microsecond field is zero, exactly as in Python. -/
def fracChars (micro : Nat) : List Char :=
  if micro = 0 then [] else '.' :: pad6c micro

/-- Characters of the `%Y-%m-%d` date rendering. -/
def dateChars (dt : PyDateTime) : List Char :=
  pad4c dt.year ++ '-' :: pad2c dt.month ++ '-' :: pad2c dt.day

/-- Characters of the `HH:MM:SS` time rendering. -/
def timeChars (dt : PyDateTime) : List Char :=
  pad2c dt.hour ++ ':' :: pad2c dt.minute ++ ':' :: pad2c dt.second

/-- Characters of the full `datetime.isoformat` rendering. -/
def isoChars (dt : PyDateTime) : List Char :=
  dateChars dt ++ 'T' :: (timeChars dt ++ (fracChars dt.microsecond ++ offChars dt.offsetMinutes))

/-- Embedding of `datetime.isoformat()`. -/
def isoformat (dt : PyDateTime) : String := String.mk (isoChars dt)

/-- Embedding of `datetime.strftime("%Y-%m-%d")`. -/
def dateStr (dt : PyDateTime) : String := String.mk (dateChars dt)

/-- Value of one decimal digit character, failure otherwise. -/
def digitVal (c : Char) : Option Nat :=
  if c.isDigit then some (c.toNat - 48) else none

/-- Read a two-digit decimal number. -/
def rd2 (a b : Char) : Option Nat := do
  let x ← digitVal a
  let y ← digitVal b
  pure (10 * x + y)

/-- Read a four-digit decimal number. -/
def rd4 (a b c d : Char) : Option Nat := do
  let x ← rd2 a b
  let y ← rd2 c d
  pure (100 * x + y)

/-- Parse a `±HH:MM` UTC offset suffix, with the validation Python
applies to fixed-offset timezones. -/
def parseOffset : List Char → Option Int
  | [sgn, a, b, ':', c, d] => do
    let h ← rd2 a b
    let m ← rd2 c d
    if h ≤ 23 ∧ m ≤ 59 then
      if sgn = '+' then pure ((h : Int) * 60 + m)
      else if sgn = '-' then pure (-((h : Int) * 60 + m))
      else none
    else none
  | _ => none

/-- Parse what follows the seconds of a timestamp: an optional 6-digit
fraction, then an optional offset. Returns microseconds and the offset. -/
def parseTail : List Char → Option (Nat × Option Int)
  | [] => some (0, none)
  | '.' :: a :: b :: c :: d :: e :: f :: rest => do
    let hi ← rd2 a b
    let md ← rd2 c d
    let lo ← rd2 e f
    let micro := hi * 10000 + md * 100 + lo
    match rest with
    | [] => pure (micro, none)
    | more => do
      let off ← parseOffset more
      pure (micro, some off)
  | other => do
    let off ← parseOffset other
    pure (0, some off)

/-- Parse the time part `HH:MM[:SS[.ffffff]][±HH:MM]` of a timestamp. -/
def parseTime : List Char → Option (Nat × Nat × Nat × Nat × Option Int)
  | h1 :: h2 :: ':' :: i1 :: i2 :: rest => do
    let h ← rd2 h1 h2
    let mi ← rd2 i1 i2
    if h ≤ 23 ∧ mi ≤ 59 then
      match rest with
      | ':' :: s1 :: s2 :: rest2 => do
        let se ← rd2 s1 s2
        if se ≤ 59 then do
          let t ← parseTail rest2
          pure (h, mi, se, t.1, t.2)
        else none
      | [] => pure (h, mi, 0, 0, none)
      | more => do
        let off ← parseOffset more
        pure (h, mi, 0, 0, some off)
    else none
  | _ => none

/-- Embedding of `datetime.fromisoformat` on the grammar relevant to the
code: `YYYY-MM-DD[THH:MM[:SS[.ffffff]][±HH:MM]]`, with range validation.
Failure (`none`) models the `ValueError` Python raises. -/
def fromisoformat (s : String) : Option PyDateTime :=
  match s.data with
  | y1 :: y2 :: y3 :: y4 :: '-' :: m1 :: m2 :: '-' :: d1 :: d2 :: rest => do
    let y ← rd4 y1 y2 y3 y4
    let mo ← rd2 m1 m2
    let d ← rd2 d1 d2
    if 1 ≤ y ∧ 1 ≤ mo ∧ mo ≤ 12 ∧ 1 ≤ d ∧ d ≤ daysInMonth y mo then
      match rest with
      | [] => pure ⟨y, mo, d, 0, 0, 0, 0, none⟩
      | 'T' :: timecs => do
        let t ← parseTime timecs
        pure ⟨y, mo, d, t.1, t.2.1, t.2.2.1, t.2.2.2.1, t.2.2.2.2⟩
      | _ => none
    else none
  | _ => none

/-- Embedding of Python `str.lower()` (ASCII case folding, which covers
every string the code compares). -/
def pyLower (s : String) : String := String.mk (s.data.map Char.toLower)

/-- Embedding of the Python substring test `needle in hay` on lists of
characters. -/
def listContains (needle : List Char) : List Char → Bool
  | [] => needle.isEmpty
  | c :: rest => needle.isPrefixOf (c :: rest) || listContains needle rest

/-- Embedding of the Python substring test `needle in hay`. -/
def strContains (needle hay : String) : Bool := listContains needle.data hay.data

/-- Embedding of `re.search(r"T(\d\x7b2\x7d:\d\x7b2\x7d:\d\x7b2\x7d)", s)`:
scan left to right for a literal `T` followed by a `HH:MM:SS` shaped
group, returning the first such group. -/
def timeMatch : List Char → Option String
  | [] => none
  | c :: rest =>
    match c, rest with
    | 'T', a :: b :: ':' :: d :: e :: ':' :: f :: g :: _ =>
      if a.isDigit && b.isDigit && d.isDigit && e.isDigit && f.isDigit && g.isDigit then
        some (String.mk [a, b, ':', d, e, ':', f, g])
      else timeMatch rest
    | _, _ => timeMatch rest

/-- Whether a string ends in an explicit `±HH:MM` UTC offset, the shape
every offset-qualified `isoformat` rendering ends with. -/
def endsWithOffset (s : String) : Bool :=
  match s.data.reverse with
  | b2 :: b1 :: c1 :: a2 :: a1 :: sgn :: _ =>
    b2.isDigit && b1.isDigit && (c1 == ':') && a2.isDigit && a1.isDigit &&
      (sgn == '+' || sgn == '-')
  | _ => false

/-- A reminder entry of the slot-set schema. -/
structure Reminder where
  method : String
  minutes : Int
deriving DecidableEq

/-- A slot set: the Python dictionary produced by extraction, restricted
to the recognized keys of the schema. A `none` field is an absent key. -/
structure SlotSet where
  intent : Option String := none
  title : Option String := none
  start : Option String := none
  «end» : Option String := none
  duration_minutes : Option Int := none
  timezone : Option String := none
  location : Option String := none
  attendees : Option (List String) := none
  recurrence : Option String := none
  reminders : Option (List Reminder) := none
deriving DecidableEq

/-- A `start` or `end` sub-object of the calendar event body. -/
structure GTime where
  dateTime : String
  timeZone : String
deriving DecidableEq

/-- An attendee sub-object of the calendar event body. -/
structure Attendee where
  email : String
deriving DecidableEq

/-- The reminders sub-object of the calendar event body. -/
structure GReminders where
  useDefault : Bool
  overrides : List Reminder
deriving DecidableEq

/-- The calendar event body built by the mapper. A `none` field is a key
absent from the final dictionary (stripped or never inserted). -/
structure GEvent where
  summary : String
  start : Option GTime := none
  «end» : Option GTime := none
  location : Option String := none
  attendees : Option (List Attendee) := none
  recurrence : Option (List String) := none
  reminders : Option GReminders := none
deriving DecidableEq

/-- Python truthiness of an optional string: false for an absent key and
for the empty string. -/
def truthy : Option String → Bool
  | none => false
  | some s => decide (s ≠ "")

/-- Python truthiness of an optional integer: false for an absent key and
for zero. -/
def intTruthy : Option Int → Bool
  | none => false
  | some n => decide (n ≠ 0)

/-- Embedding of `to_gcal_event` from `NLU_with_OpenAI.py`: transforms a
slot set into the calendar event body, computing `end` from `start` plus
`duration_minutes` when needed, and stripping absent values. -/
def to_gcal_event (nlu : SlotSet) : GEvent :=
  let tz := nlu.timezone.getD "America/New_York"
  let start := nlu.start
  let end0 := nlu.«end»
  let dur := nlu.duration_minutes
  let endv :=
    if truthy start && !truthy end0 && intTruthy dur then
      match fromisoformat (start.getD "") with
      | some start_dt => some (isoformat (addMinutes start_dt (dur.getD 0)))
      | none => none
    else end0
  { summary := nlu.title.getD "(No title)"
    start := if truthy start then some { dateTime := start.getD "", timeZone := tz } else none
    «end» := if truthy endv then some { dateTime := endv.getD "", timeZone := tz } else none
    location := if truthy nlu.location then nlu.location else none
    attendees :=
      match nlu.attendees with
      | some (a :: rest) => some ((a :: rest).map (fun x => { email := x }))
      | _ => none
    recurrence := if truthy nlu.recurrence then some [nlu.recurrence.getD ""] else none
    reminders :=
      match nlu.reminders with
      | some (r :: rest) => some { useDefault := false, overrides := r :: rest }
      | _ => none }

/-- Embedding of `validate_and_correct_dates` from `app.py`, with the
value of `datetime.now()` passed explicitly as `now`. When the `start`
value contains the placeholder-year substring and has a `THH:MM:SS`
group, the date is rewritten to tomorrow with a hardcoded `-05:00`
offset; `end` gets the same rewrite only when it too contains the
substring and a time group. -/
def validate_and_correct_dates (now : PyDateTime) (event_data : SlotSet) : SlotSet :=
  match event_data.start with
  | none => event_data
  | some start_str =>
    if truthy (some start_str) && strContains "2024" start_str then
      match timeMatch start_str.data with
      | none => event_data
      | some time_part =>
        let corrected_date := addDays now 1
        let corrected_start := dateStr corrected_date ++ "T" ++ time_part ++ "-05:00"
        let e1 := { event_data with start := some corrected_start }
        match e1.«end» with
        | none => e1
        | some end_str =>
          if strContains "2024" end_str then
            match timeMatch end_str.data with
            | none => e1
            | some end_time_part =>
              { e1 with «end» := some (dateStr corrected_date ++ "T" ++ end_time_part ++ "-05:00") }
          else e1
    else event_data

/-- Embedding of `extract_event_fallback` from `app.py`, with the value
of `datetime.now()` passed explicitly as `now` (a naive datetime). -/
def extract_event_fallback (now : PyDateTime) (utterance : String) : SlotSet :=
  let utterance_lower := pyLower utterance
  if strContains "meeting" utterance_lower then
    { intent := some "CreateEvent", title := some "Meeting",
      start := some (isoformat (replaceHMS (addDays now 1) 14 0 0)),
      «end» := some (isoformat (replaceHMS (addDays now 1) 15 0 0)) }
  else if strContains "lunch" utterance_lower then
    { intent := some "CreateEvent", title := some "Lunch Meeting",
      start := some (isoformat (replaceHMS (addDays now 1) 12 0 0)),
      «end» := some (isoformat (replaceHMS (addDays now 1) 13 0 0)) }
  else if strContains "cancel" utterance_lower || strContains "delete" utterance_lower
       || strContains "remove" utterance_lower then
    { intent := some "CancelEvent" }
  else
    { intent := some "QueryFreeTime" }

/-- Outcome of the free-text Ollama call of `app.py`: the transport may
time out or fail, the envelope or embedded JSON may fail to decode, or a
slot-set payload is obtained. Every exception raised inside the `try`
block of `extract_event` lands in one of the first three cases. -/
inductive OllamaResult where
  | transportError
  | timeout
  | decodeError
  | success (data : SlotSet)
deriving DecidableEq

/-- Embedding of `extract_event` from `app.py`: every failure of the
model call resolves to the rule-based fallback, a decoded payload goes
through the date-correction heuristic. -/
def extract_event (now : PyDateTime) (utterance : String) : OllamaResult → SlotSet
  | OllamaResult.transportError => extract_event_fallback now utterance
  | OllamaResult.timeout => extract_event_fallback now utterance
  | OllamaResult.decodeError => extract_event_fallback now utterance
  | OllamaResult.success d => validate_and_correct_dates now d

/-- Decoding outcome of the tool-call arguments string in
`NLU_with_OpenAI.py` (`json.loads` succeeds or raises). -/
inductive ToolArgs where
  | undecodable
  | decoded (data : SlotSet)
deriving DecidableEq

/-- Outcome of the OpenAI chat-completions call of `NLU_with_OpenAI.py`.
The API call itself sits outside any `try` block, so a transport error or
timeout there is an exception; otherwise the response carries either no
tool calls or one tool call with an arguments string. -/
inductive OpenAIResult where
  | transportError
  | timeout
  | noToolCalls
  | toolCall (args : ToolArgs)
deriving DecidableEq

/-- Embedding of `extract_event` from `NLU_with_OpenAI.py`. The model
call is not wrapped in a `try` block, so a transport failure or timeout
propagates (`Except.error`); only the `json.loads` of the tool-call
arguments is guarded. -/
def openai_extract_event : OpenAIResult → Except String SlotSet
  | OpenAIResult.transportError =>
    Except.error "exception from the chat.completions.create call propagates"
  | OpenAIResult.timeout =>
    Except.error "timeout exception from the chat.completions.create call propagates"
  | OpenAIResult.noToolCalls => Except.ok { intent := some "QueryFreeTime" }
  | OpenAIResult.toolCall ToolArgs.undecodable => Except.ok { intent := some "QueryFreeTime" }
  | OpenAIResult.toolCall (ToolArgs.decoded d) => Except.ok d

/-- Whether an extraction result models a Python exception escaping to
the caller. -/
def raises : Except String SlotSet → Bool
  | Except.error _ => true
  | Except.ok _ => false

/-- A well-formed (possibly minimal) slot set: the `intent` key is
present. -/
def wellFormed (s : SlotSet) : Bool := s.intent.isSome

/-- Cleanliness of an event body, apart from `summary`: every present
field is non-null by construction, and carries a non-empty value; the
reminders sub-object has `useDefault := false` and non-empty overrides. -/
def cleanBody (b : GEvent) : Bool :=
  (match b.start with
   | none => true
   | some t => decide (t.dateTime ≠ "")) &&
  (match b.«end» with
   | none => true
   | some t => decide (t.dateTime ≠ "")) &&
  (match b.location with
   | none => true
   | some l => decide (l ≠ "")) &&
  (match b.attendees with
   | none => true
   | some as => decide (as ≠ [])) &&
  (match b.recurrence with
   | none => true
   | some rs => decide (rs ≠ [])) &&
  (match b.reminders with
   | none => true
   | some gr => !gr.useDefault && decide (gr.overrides ≠ []))

/-! ### Concrete fixtures used by witnesses and counterexamples -/

/-- A fixed value for `datetime.now()`: a naive datetime. -/
def now0 : PyDateTime := ⟨2026, 10, 12, 9, 30, 0, 0, none⟩

/-- Slot set with `start`, no `end`, and a positive duration. -/
def c1slot : SlotSet :=
  { intent := some "CreateEvent", start := some "2025-09-03T16:00:00-04:00",
    duration_minutes := some 45 }

/-- The parse of the `start` value of `c1slot`. -/
def c1dt : PyDateTime := ⟨2025, 9, 3, 16, 0, 0, 0, some (-240)⟩

/-- Slot set with `start`, no `end`, and a zero duration. -/
def c1zero : SlotSet :=
  { intent := some "CreateEvent", start := some "2025-09-03T16:00:00-04:00",
    duration_minutes := some 0 }

/-- Slot set whose `title` key is present with an empty-string value. -/
def c2slot : SlotSet := { intent := some "CreateEvent", title := some "" }

/-- Slot set whose `start` and `end` both carry the placeholder year and a
non-default offset. -/
def c4slot : SlotSet :=
  { intent := some "CreateEvent", start := some "2024-09-03T16:00:00-04:00",
    «end» := some "2024-09-03T17:30:00-04:00" }

/-- Slot set with attendees in a fixed order. -/
def c6a : SlotSet :=
  { intent := some "CreateEvent", attendees := some ["maya@ex.com", "leo@ex.com"] }

/-- Slot set whose `attendees` key is present with an empty sequence. -/
def c6b : SlotSet := { intent := some "CreateEvent", attendees := some [] }

/-- Slot set with an unparseable `start` and no `end`. -/
def c9slot : SlotSet :=
  { intent := some "CreateEvent", start := some "not-a-date", duration_minutes := some 30 }

/-- Slot set with no `start` key but an `end` carrying the placeholder year. -/
def c10a : SlotSet := { intent := some "CreateEvent", «end» := some "2024-12-31T10:00:00-05:00" }

/-- Slot set whose `start` lacks the placeholder-year substring while `end`
carries it. -/
def c10b : SlotSet :=
  { intent := some "CreateEvent", start := some "2025-01-01T10:00:00-05:00",
    «end» := some "2024-12-31T10:00:00-05:00" }

/-! ### Helper lemmas -/

/-- Evaluation checks of the datetime embedding: parsing, minute
arithmetic crossing a year boundary, day arithmetic, and the grammar
rejecting malformed or out-of-range inputs while accepting naive ones. -/
theorem datetime_embedding_checks :
    fromisoformat "2025-09-03T16:00:00-04:00" =
      some ⟨2025, 9, 3, 16, 0, 0, 0, some (-240)⟩ ∧
    isoformat (addMinutes ⟨2025, 9, 3, 16, 0, 0, 0, some (-240)⟩ 45) =
      "2025-09-03T16:45:00-04:00" ∧
    isoformat (addMinutes ⟨2025, 12, 31, 23, 30, 0, 0, some 330⟩ 45) =
      "2026-01-01T00:15:00+05:30" ∧
    dateStr (addDays ⟨2026, 10, 12, 9, 30, 0, 0, none⟩ 1) = "2026-10-13" ∧
    isoformat (replaceHMS (addDays ⟨2026, 10, 12, 9, 30, 0, 123456, none⟩ 1) 14 0 0) =
      "2026-10-13T14:00:00.123456" ∧
    fromisoformat "not-a-date" = none ∧
    fromisoformat "2024-02-30T10:00:00-05:00" = none ∧
    fromisoformat "2024-02-29T10:00:00" = some ⟨2024, 2, 29, 10, 0, 0, 0, none⟩ := by
  decide

/-- Evaluation checks of the string-helper embedding: Python substring
membership, the time-group regex search, case folding, and the offset
suffix test. -/
theorem string_embedding_checks :
    strContains "2024" "2024-09-03T16:00:00-04:00" = true ∧
    strContains "2024" "2025-09-03T16:00:00-04:00" = false ∧
    timeMatch ("2024-09-03T16:00:00-04:00").data = some "16:00:00" ∧
    pyLower "Team MEETING" = "team meeting" ∧
    endsWithOffset "2026-10-13T14:00:00" = false ∧
    endsWithOffset "2026-10-13T14:00:00-05:00" = true := by
  decide

theorem dchar_isDigit (n : Nat) : (dchar n).isDigit = true := by
  unfold dchar; split <;> decide

theorem dchar_bne_colon (n : Nat) : (dchar n == ':') = false := by
  unfold dchar; split <;> decide

theorem dchar_bne_plus (n : Nat) : (dchar n == '+') = false := by
  unfold dchar; split <;> decide

theorem dchar_bne_minus (n : Nat) : (dchar n == '-') = false := by
  unfold dchar; split <;> decide

theorem isoformat_ne_empty (dt : PyDateTime) : isoformat dt ≠ "" := by
  intro h
  have h2 : isoChars dt = ([] : List Char) := congrArg String.data h
  simp [isoChars, dateChars, pad4c] at h2

theorem truthy_getD (o : Option String) (h : truthy o = true) : o.getD "" ≠ "" := by
  cases o with
  | none => simp [truthy] at h
  | some s => simpa [truthy] using h

theorem offsetMinutes_addMinutes (dt : PyDateTime) (k : Int) :
    (addMinutes dt k).offsetMinutes = dt.offsetMinutes := rfl

theorem offsetMinutes_addDays (dt : PyDateTime) (n : Int) :
    (addDays dt n).offsetMinutes = dt.offsetMinutes := rfl

theorem fallback_wellFormed (now : PyDateTime) (u : String) :
    wellFormed (extract_event_fallback now u) = true := by
  unfold extract_event_fallback wellFormed
  dsimp only
  repeat' split
  all_goals rfl

theorem endsWithOffset_append_fixed (x : String) :
    endsWithOffset (x ++ "-05:00") = true := by
  have h : (x ++ "-05:00").data = x.data ++ ['-', '0', '5', ':', '0', '0'] := by
    rw [String.data_append]
  unfold endsWithOffset
  rw [h, List.reverse_append]
  rfl

theorem endsWithOffset_isoformat_naive (dt : PyDateTime) (h : dt.offsetMinutes = none) :
    endsWithOffset (isoformat dt) = false := by
  unfold endsWithOffset isoformat isoChars timeChars fracChars offChars dateChars
  rw [h]
  by_cases hm : dt.microsecond = 0 <;>
    simp [hm, pad2c, pad4c, pad6c, List.reverse_append, dchar_isDigit,
      dchar_bne_colon, dchar_bne_plus, dchar_bne_minus]

theorem validate_start_eq (now : PyDateTime) (e : SlotSet) (s tp : String)
    (hs : e.start = some s) (hne : s ≠ "") (h24 : strContains "2024" s = true)
    (htm : timeMatch s.data = some tp) :
    (validate_and_correct_dates now e).start =
      some (dateStr (addDays now 1) ++ "T" ++ tp ++ "-05:00") := by
  have hc : (truthy (some s) && strContains "2024" s) = true := by
    simp [truthy, hne, h24]
  unfold validate_and_correct_dates
  simp only [hs]
  rw [if_pos hc]
  simp only [htm]
  cases he : e.«end» with
  | none => simp [he]
  | some es =>
    simp only [he]
    repeat' split
    all_goals simp

theorem validate_end_none (now : PyDateTime) (e : SlotSet) (s tp : String)
    (hs : e.start = some s) (hne : s ≠ "") (h24 : strContains "2024" s = true)
    (htm : timeMatch s.data = some tp) (he : e.«end» = none) :
    (validate_and_correct_dates now e).«end» = none := by
  have hc : (truthy (some s) && strContains "2024" s) = true := by
    simp [truthy, hne, h24]
  unfold validate_and_correct_dates
  simp only [hs]
  rw [if_pos hc]
  simp [htm, he]

theorem validate_end_corr (now : PyDateTime) (e : SlotSet) (s tp es etp : String)
    (hs : e.start = some s) (hne : s ≠ "") (h24 : strContains "2024" s = true)
    (htm : timeMatch s.data = some tp) (he : e.«end» = some es)
    (h24e : strContains "2024" es = true) (htme : timeMatch es.data = some etp) :
    (validate_and_correct_dates now e).«end» =
      some (dateStr (addDays now 1) ++ "T" ++ etp ++ "-05:00") := by
  have hc : (truthy (some s) && strContains "2024" s) = true := by
    simp [truthy, hne, h24]
  unfold validate_and_correct_dates
  simp only [hs]
  rw [if_pos hc]
  simp only [htm, he]
  rw [if_pos h24e]
  simp [htme]

theorem validate_end_keep (now : PyDateTime) (e : SlotSet) (s tp es : String)
    (hs : e.start = some s) (hne : s ≠ "") (h24 : strContains "2024" s = true)
    (htm : timeMatch s.data = some tp) (he : e.«end» = some es)
    (h24e : strContains "2024" es = false) :
    (validate_and_correct_dates now e).«end» = some es := by
  have hc : (truthy (some s) && strContains "2024" s) = true := by
    simp [truthy, hne, h24]
  unfold validate_and_correct_dates
  simp only [hs]
  rw [if_pos hc]
  simp only [htm, he]
  rw [if_neg (by simp [h24e])]

/-! ### Claim C1 -/

/-- C1 counterexample: with `start` present, `end` absent and
`duration_minutes` equal to 0, the claim demands an output `end` equal to
`start` plus 0 minutes, but the mapper tests Python truthiness of the
duration (0 is falsy), skips the computation, and the output body has no
`end` field at all, while `start` is present. -/
theorem c1_counterexample :
    (to_gcal_event c1zero).«end» = none ∧
    (to_gcal_event c1zero).start =
      some { dateTime := "2025-09-03T16:00:00-04:00", timeZone := "America/New_York" } := by
  exact ⟨by decide, by decide⟩

/-- C1 amended: for every slot set whose `start` is present and parses as
an offset-qualified timestamp, whose `end` is absent, and whose
`duration_minutes` equals a NONZERO d, the output body has an `end`
object whose timestamp is the rendering of `start` plus d minutes, and
that datetime carries the same UTC offset as the parsed `start`. -/
theorem c1_amended (nlu : SlotSet) (s : String) (dt : PyDateTime) (d : Int)
    (hs : nlu.start = some s) (he : nlu.«end» = none)
    (hd : nlu.duration_minutes = some d) (hd0 : d ≠ 0)
    (hp : fromisoformat s = some dt) :
    (to_gcal_event nlu).«end» =
      some { dateTime := isoformat (addMinutes dt d),
             timeZone := nlu.timezone.getD "America/New_York" } ∧
    (addMinutes dt d).offsetMinutes = dt.offsetMinutes := by
  have hs0 : s ≠ "" := by
    intro h
    rw [h] at hp
    have hemp : fromisoformat "" = none := rfl
    rw [hemp] at hp
    exact Option.noConfusion hp
  refine ⟨?_, rfl⟩
  simp [to_gcal_event, hs, he, hd, hp, truthy, intTruthy, hs0, hd0, isoformat_ne_empty]

/-- C1 witness: the amended theorem applied to a concrete slot set with a
45 minute duration; the computed `end` evaluates to 16:45 with the same
-04:00 offset as `start`. -/
theorem c1_witness :
    isoformat (addMinutes c1dt 45) = "2025-09-03T16:45:00-04:00" ∧
    ((to_gcal_event c1slot).«end» =
      some { dateTime := isoformat (addMinutes c1dt 45), timeZone := "America/New_York" } ∧
     (addMinutes c1dt 45).offsetMinutes = c1dt.offsetMinutes) :=
  ⟨by decide,
   c1_amended c1slot "2025-09-03T16:00:00-04:00" c1dt 45 rfl rfl rfl (by decide) (by decide)⟩

/-! ### Claim C3 -/

/-- C3 counterexample: in the schema-constrained strategy the model call
is not wrapped in any `try` block, so a transport failure or timeout
raises to the caller, contradicting the claim that extraction never
raises under every failure mode of either strategy. -/
theorem c3_counterexample :
    raises (openai_extract_event OpenAIResult.transportError) = true ∧
    raises (openai_extract_event OpenAIResult.timeout) = true := ⟨rfl, rfl⟩

/-- C3 amended: the free-text strategy never raises — transport failures,
timeouts and decode failures all resolve to the well-formed rule-based
fallback slot set; the schema-constrained strategy returns the well-formed
minimal slot set without raising when the model declines a tool call or
the payload fails to decode, but a transport failure or timeout in its
model call itself propagates to the caller. -/
theorem c3_amended :
    (∀ now u,
      wellFormed (extract_event now u OllamaResult.transportError) = true ∧
      wellFormed (extract_event now u OllamaResult.timeout) = true ∧
      wellFormed (extract_event now u OllamaResult.decodeError) = true) ∧
    (raises (openai_extract_event OpenAIResult.noToolCalls) = false ∧
     wellFormed { intent := some "QueryFreeTime" } = true ∧
     openai_extract_event OpenAIResult.noToolCalls =
       Except.ok { intent := some "QueryFreeTime" } ∧
     openai_extract_event (OpenAIResult.toolCall ToolArgs.undecodable) =
       Except.ok { intent := some "QueryFreeTime" }) ∧
    (raises (openai_extract_event OpenAIResult.transportError) = true ∧
     raises (openai_extract_event OpenAIResult.timeout) = true) := by
  refine ⟨?_, ⟨rfl, rfl, rfl, rfl⟩, ⟨rfl, rfl⟩⟩
  intro now u
  exact ⟨fallback_wellFormed now u, fallback_wellFormed now u, fallback_wellFormed now u⟩

/-! ### Claim C8 -/

/-- C8: in the schema-constrained strategy, a response with no structured
tool call, and a tool-call payload that fails to parse as JSON, both
yield exactly the minimal slot set with intent QueryFreeTime. -/
theorem c8_schema_fallback :
    openai_extract_event OpenAIResult.noToolCalls =
      Except.ok { intent := some "QueryFreeTime" } ∧
    openai_extract_event (OpenAIResult.toolCall ToolArgs.undecodable) =
      Except.ok { intent := some "QueryFreeTime" } := ⟨rfl, rfl⟩

/-! ### Claim C9 -/

/-- C9: the mapper is a total function of the slot set (no effects by
construction in this embedding), and when `start` is present but fails to
parse as a timestamp while `end` is absent, the output body simply has no
`end` field instead of failing. -/
theorem c9_unparseable_start (nlu : SlotSet) (s : String)
    (hs : nlu.start = some s) (he : nlu.«end» = none)
    (hp : fromisoformat s = none) :
    (to_gcal_event nlu).«end» = none := by
  by_cases hs0 : s = ""
  · subst hs0
    simp [to_gcal_event, hs, he, truthy]
  · simp only [to_gcal_event, hs, he]
    simp [truthy, intTruthy, hs0, hp]

/-- C9 witness: the theorem applied to a slot set whose `start` is the
unparseable string, with the parser failure evaluated concretely. -/
theorem c9_witness :
    fromisoformat "not-a-date" = none ∧ (to_gcal_event c9slot).«end» = none :=
  ⟨by decide, c9_unparseable_start c9slot "not-a-date" rfl rfl (by decide)⟩

/-! ### Claim C10 -/

/-- C10: the date corrector leaves everything alone without a `start` key
(even when `end` carries the placeholder year), and likewise when the
`start` value does not contain the placeholder-year substring. -/
theorem c10_correction_guard (now : PyDateTime) (e : SlotSet) :
    (e.start = none → validate_and_correct_dates now e = e) ∧
    (∀ s, e.start = some s → strContains "2024" s = false →
      validate_and_correct_dates now e = e) := by
  constructor
  · intro h
    unfold validate_and_correct_dates
    rw [h]
  · intro s hs h24
    unfold validate_and_correct_dates
    simp [hs, h24]

/-- C10 witness: the theorem applied to a slot set lacking `start` but
whose `end` carries the placeholder year, and to a slot set whose `start`
is a 2025 timestamp while `end` carries the placeholder year; both come
back unchanged. -/
theorem c10_witness :
    validate_and_correct_dates now0 c10a = c10a ∧
    validate_and_correct_dates now0 c10b = c10b :=
  ⟨(c10_correction_guard now0 c10a).1 rfl,
   (c10_correction_guard now0 c10b).2 "2025-01-01T10:00:00-05:00" rfl (by decide)⟩

/-! ### Claim C2 -/

theorem clean_opt_shape (o : Option String) (tz : String) :
    (match (if truthy o then some ({ dateTime := o.getD "", timeZone := tz } : GTime) else none) with
     | none => true
     | some t => decide (t.dateTime ≠ "")) = true := by
  by_cases h : truthy o = true
  · simp [h, truthy_getD _ h]
  · have h2 : truthy o = false := by revert h; cases truthy o <;> simp
    simp [h2]

theorem clean_start (nlu : SlotSet) :
    (match (to_gcal_event nlu).start with
     | none => true
     | some t => decide (t.dateTime ≠ "")) = true := by
  unfold to_gcal_event
  dsimp only
  exact clean_opt_shape _ _

theorem clean_end (nlu : SlotSet) :
    (match (to_gcal_event nlu).«end» with
     | none => true
     | some t => decide (t.dateTime ≠ "")) = true := by
  unfold to_gcal_event
  dsimp only
  exact clean_opt_shape _ _

theorem clean_location (nlu : SlotSet) :
    (match (to_gcal_event nlu).location with
     | none => true
     | some l => decide (l ≠ "")) = true := by
  cases h : nlu.location with
  | none => simp [to_gcal_event, h, truthy]
  | some l => by_cases h0 : l = "" <;> simp [to_gcal_event, h, truthy, h0]

theorem clean_attendees (nlu : SlotSet) :
    (match (to_gcal_event nlu).attendees with
     | none => true
     | some as => decide (as ≠ [])) = true := by
  cases h : nlu.attendees with
  | none => simp [to_gcal_event, h]
  | some l =>
    cases l with
    | nil => simp [to_gcal_event, h]
    | cons a rest => simp [to_gcal_event, h]

theorem clean_recurrence (nlu : SlotSet) :
    (match (to_gcal_event nlu).recurrence with
     | none => true
     | some rs => decide (rs ≠ [])) = true := by
  cases h : nlu.recurrence with
  | none => simp [to_gcal_event, h, truthy]
  | some r => by_cases h0 : r = "" <;> simp [to_gcal_event, h, truthy, h0]

theorem clean_reminders (nlu : SlotSet) :
    (match (to_gcal_event nlu).reminders with
     | none => true
     | some gr => !gr.useDefault && decide (gr.overrides ≠ [])) = true := by
  cases h : nlu.reminders with
  | none => simp [to_gcal_event, h]
  | some l =>
    cases l with
    | nil => simp [to_gcal_event, h]
    | cons r rs => simp [to_gcal_event, h]

/-- C2 counterexample: a slot set whose `title` key is present with an
empty-string value is mapped by `nlu.get with default`, which only
substitutes the placeholder for an ABSENT key; the resulting body carries
a present, empty `summary` field, so not every present field of the body
is non-empty. -/
theorem c2_counterexample : (to_gcal_event c2slot).summary = "" := by decide

/-- C2 amended: the body never carries a null value (computed-null
`start`/`end` objects are stripped, every other optional field is only
inserted when its value is truthy, hence non-empty, and an inserted
reminders object has `useDefault := false` with non-empty overrides); the
one exception to non-emptiness is `summary`, which always equals `title`
when that key is present — even when its value is the empty string — and
the placeholder "(No title)" otherwise. -/
theorem c2_amended (nlu : SlotSet) :
    cleanBody (to_gcal_event nlu) = true ∧
    (to_gcal_event nlu).summary = nlu.title.getD "(No title)" := by
  constructor
  · unfold cleanBody
    rw [clean_start, clean_end, clean_location, clean_attendees, clean_recurrence,
      clean_reminders]
    rfl
  · rfl

/-! ### Claim C6 -/

/-- C6: the mapper omits `attendees` for an absent or empty input
sequence, and otherwise wraps each raw string as an email object in the
original order. -/
theorem c6_attendees_mapping (nlu : SlotSet) :
    ((nlu.attendees = none ∨ nlu.attendees = some []) →
      (to_gcal_event nlu).attendees = none) ∧
    (∀ a rest, nlu.attendees = some (a :: rest) →
      (to_gcal_event nlu).attendees =
        some ((a :: rest).map (fun x => ({ email := x } : Attendee)))) := by
  constructor
  · rintro (h | h) <;> simp [to_gcal_event, h]
  · intro a rest h
    simp [to_gcal_event, h]

/-- C6 witness: the theorem applied to a present-but-empty attendee list
(field omitted) and to a two-element list (order preserved). -/
theorem c6_witness :
    (to_gcal_event c6b).attendees = none ∧
    (to_gcal_event c6a).attendees =
      some [{ email := "maya@ex.com" }, { email := "leo@ex.com" }] :=
  ⟨(c6_attendees_mapping c6b).1 (Or.inr rfl),
   (c6_attendees_mapping c6a).2 "maya@ex.com" ["leo@ex.com"] rfl⟩

/-! ### Claim C7 -/

/-- C7: when the model call of the free-text strategy fails, an utterance
containing "meeting" (case-insensitively) yields the canned CreateEvent
slot set titled Meeting with start and end one day ahead at 14:00 and
15:00, and an utterance containing none of the recognized keywords yields
exactly the QueryFreeTime slot set. -/
theorem c7_fallback_canned (now : PyDateTime) (u : String) :
    (strContains "meeting" (pyLower u) = true →
      extract_event now u OllamaResult.transportError =
        { intent := some "CreateEvent", title := some "Meeting",
          start := some (isoformat (replaceHMS (addDays now 1) 14 0 0)),
          «end» := some (isoformat (replaceHMS (addDays now 1) 15 0 0)) } ∧
      (replaceHMS (addDays now 1) 14 0 0).hour = 14 ∧
      (replaceHMS (addDays now 1) 14 0 0).minute = 0 ∧
      (replaceHMS (addDays now 1) 15 0 0).hour = 15 ∧
      (replaceHMS (addDays now 1) 15 0 0).minute = 0) ∧
    (strContains "meeting" (pyLower u) = false →
     strContains "lunch" (pyLower u) = false →
     strContains "cancel" (pyLower u) = false →
     strContains "delete" (pyLower u) = false →
     strContains "remove" (pyLower u) = false →
      extract_event now u OllamaResult.transportError =
        { intent := some "QueryFreeTime" }) := by
  constructor
  · intro h
    refine ⟨?_, rfl, rfl, rfl, rfl⟩
    simp [extract_event, extract_event_fallback, h]
  · intro h1 h2 h3 h4 h5
    simp [extract_event, extract_event_fallback, h1, h2, h3, h4, h5]

/-- C7 witness: the theorem applied to a concrete meeting utterance and to
a concrete keyword-free utterance. -/
theorem c7_witness :
    strContains "meeting" (pyLower "Team meeting with Maya") = true ∧
    extract_event now0 "Team meeting with Maya" OllamaResult.transportError =
      { intent := some "CreateEvent", title := some "Meeting",
        start := some (isoformat (replaceHMS (addDays now0 1) 14 0 0)),
        «end» := some (isoformat (replaceHMS (addDays now0 1) 15 0 0)) } ∧
    extract_event now0 "what is on my calendar" OllamaResult.transportError =
      { intent := some "QueryFreeTime" } :=
  ⟨by decide,
   ((c7_fallback_canned now0 "Team meeting with Maya").1 (by decide)).1,
   (c7_fallback_canned now0 "what is on my calendar").2 (by decide) (by decide)
     (by decide) (by decide) (by decide)⟩

/-! ### Claim C4 -/

/-- C4 counterexample: the date corrector rewrites a placeholder-year
`start` carrying a -04:00 offset into a string carrying the hardcoded
-05:00 offset, so the UTC offset is NOT unchanged from the extracted
value (it changes from -240 to -300 minutes). -/
theorem c4_counterexample :
    (validate_and_correct_dates now0 c4slot).start = some "2026-10-13T16:00:00-05:00" ∧
    (fromisoformat "2026-10-13T16:00:00-05:00").map PyDateTime.offsetMinutes =
      some (some (-300)) ∧
    (fromisoformat "2024-09-03T16:00:00-04:00").map PyDateTime.offsetMinutes =
      some (some (-240)) := ⟨by decide, by decide, by decide⟩

/-- C4 amended: when the extracted `start` contains the placeholder-year
substring and a `THH:MM:SS` group, the corrector rewrites `start` to the
date of real-current-time plus one day with the extracted time-of-day
preserved but with the FIXED offset -05:00 (not the extracted offset);
`end` is rewritten the same way only when `end` itself also contains the
placeholder-year substring and a time group, and is left untouched
otherwise. -/
theorem c4_amended (now : PyDateTime) (e : SlotSet) (s tp : String)
    (hs : e.start = some s) (hne : s ≠ "")
    (h24 : strContains "2024" s = true) (htm : timeMatch s.data = some tp) :
    (validate_and_correct_dates now e).start =
      some (dateStr (addDays now 1) ++ "T" ++ tp ++ "-05:00") ∧
    (e.«end» = none → (validate_and_correct_dates now e).«end» = none) ∧
    (∀ es etp, e.«end» = some es → strContains "2024" es = true →
      timeMatch es.data = some etp →
      (validate_and_correct_dates now e).«end» =
        some (dateStr (addDays now 1) ++ "T" ++ etp ++ "-05:00")) ∧
    (∀ es, e.«end» = some es → strContains "2024" es = false →
      (validate_and_correct_dates now e).«end» = some es) := by
  refine ⟨validate_start_eq now e s tp hs hne h24 htm, ?_, ?_, ?_⟩
  · intro he
    exact validate_end_none now e s tp hs hne h24 htm he
  · intro es etp he h24e htme
    exact validate_end_corr now e s tp es etp hs hne h24 htm he h24e htme
  · intro es he h24e
    exact validate_end_keep now e s tp es hs hne h24 htm he h24e

/-- C4 witness: the amended theorem applied to a concrete placeholder-year
slot set against the fixed current time, with tomorrow evaluated. -/
theorem c4_witness :
    dateStr (addDays now0 1) = "2026-10-13" ∧
    (validate_and_correct_dates now0 c4slot).start =
      some (dateStr (addDays now0 1) ++ "T" ++ "16:00:00" ++ "-05:00") ∧
    (validate_and_correct_dates now0 c4slot).«end» =
      some (dateStr (addDays now0 1) ++ "T" ++ "17:30:00" ++ "-05:00") :=
  ⟨by decide,
   (c4_amended now0 c4slot "2024-09-03T16:00:00-04:00" "16:00:00" rfl (by decide)
     (by decide) (by decide)).1,
   (c4_amended now0 c4slot "2024-09-03T16:00:00-04:00" "16:00:00" rfl (by decide)
     (by decide) (by decide)).2.2.1 "2024-09-03T17:30:00-04:00" "17:30:00" rfl
     (by decide) (by decide)⟩

/-! ### Claim C5 -/

/-- C5 counterexample: the rule-based fallback path of the extraction
stage produces `start` and `end` values that are naive local timestamps
with NO UTC offset, refuting the invariant that extracted timestamps are
always offset-qualified. -/
theorem c5_counterexample :
    (extract_event now0 "Schedule a team meeting" OllamaResult.transportError).start =
      some "2026-10-13T14:00:00" ∧
    endsWithOffset "2026-10-13T14:00:00" = false ∧
    (extract_event now0 "Schedule a team meeting" OllamaResult.transportError).«end» =
      some "2026-10-13T15:00:00" ∧
    endsWithOffset "2026-10-13T15:00:00" = false :=
  ⟨by decide, by decide, by decide, by decide⟩

/-- C5 amended: the invariant fails on the fallback paths — slot sets from
the rule-based keyword matcher carry bare wall-clock `start`/`end`
strings without any UTC offset (`datetime.now()` is naive) — while the
timestamps rewritten by the date-correction heuristic do always end in
the explicit fixed -05:00 offset. -/
theorem c5_amended (now : PyDateTime) (u : String) :
    (now.offsetMinutes = none → strContains "meeting" (pyLower u) = true →
      ∃ s1 s2, (extract_event now u OllamaResult.transportError).start = some s1 ∧
        (extract_event now u OllamaResult.transportError).«end» = some s2 ∧
        endsWithOffset s1 = false ∧ endsWithOffset s2 = false) ∧
    (∀ e s tp, e.start = some s → s ≠ "" → strContains "2024" s = true →
      timeMatch s.data = some tp →
      ∃ cs, (validate_and_correct_dates now e).start = some cs ∧
        endsWithOffset cs = true) := by
  constructor
  · intro hn hm
    refine ⟨isoformat (replaceHMS (addDays now 1) 14 0 0),
            isoformat (replaceHMS (addDays now 1) 15 0 0), ?_, ?_, ?_, ?_⟩
    · simp [extract_event, extract_event_fallback, hm]
    · simp [extract_event, extract_event_fallback, hm]
    · exact endsWithOffset_isoformat_naive _ (by simp [replaceHMS, addDays, hn])
    · exact endsWithOffset_isoformat_naive _ (by simp [replaceHMS, addDays, hn])
  · intro e s tp hs hne h24 htm
    exact ⟨dateStr (addDays now 1) ++ "T" ++ tp ++ "-05:00",
      validate_start_eq now e s tp hs hne h24 htm,
      endsWithOffset_append_fixed _⟩

/-- C5 witness: both parts of the amended theorem at concrete inputs. -/
theorem c5_witness :
    (∃ s1 s2, (extract_event now0 "project meeting" OllamaResult.transportError).start =
        some s1 ∧
      (extract_event now0 "project meeting" OllamaResult.transportError).«end» = some s2 ∧
      endsWithOffset s1 = false ∧ endsWithOffset s2 = false) ∧
    (∃ cs, (validate_and_correct_dates now0 c4slot).start = some cs ∧
      endsWithOffset cs = true) :=
  ⟨(c5_amended now0 "project meeting").1 (by decide) (by decide),
   (c5_amended now0 "project meeting").2 c4slot "2024-09-03T16:00:00-04:00" "16:00:00"
     rfl (by decide) (by decide) (by decide)⟩
